import Mathlib

/-!
Shallow embedding of the cart consistency layer of the local backend
(`getCartForUser`, `addItemToCart`, `updateItemQuantity`,
`removeItemFromCart`, `clearCartForUser` together with their cache and
durable-store helpers).

State is passed explicitly: the durable cart table and the items (catalog)
table are association lists, the cache is an association list guarded by a
presence flag and a fail-every-call flag, and every external call is logged
in an event trace.  Durable cart-table calls can be made to fail by placing
an error in `St.cartFault`; the failing call raises the error after routing
it through `throwWithSchemaHint`, exactly as every cart-table call site in
the source wraps its promise with `.catch(throwWithSchemaHint)`.  Timestamps
are modelled by a logical clock that ticks at each `new Date()` call site.
-/

/-- JavaScript truthiness of a possibly-absent string: `undefined`/`null`
and the empty string are falsy. -/
def strTruthy : Option String → Bool
  | none => false
  | some s => s != ""

/-- JavaScript `a || b` on possibly-absent strings: returns `a` when it is
truthy, otherwise `b`. -/
def jsOr (a b : Option String) : Option String :=
  if strTruthy a then a else b

/-- JavaScript `a || d` where the fallback `d` is a plain string default. -/
def jsOrD (a : Option String) (d : String) : String :=
  if strTruthy a then a.getD d else d

/-- Does the pattern lead the character list? (helper for substring test) -/
def leadMatch : List Char → List Char → Bool
  | _, [] => true
  | [], _ :: _ => false
  | c :: cs, p :: ps => c == p && leadMatch cs ps

/-- Is the pattern a contiguous sublist? (helper for substring test) -/
def hasSub : List Char → List Char → Bool
  | [], pat => leadMatch [] pat
  | c :: cs, pat => leadMatch (c :: cs) pat || hasSub cs pat

/-- JavaScript `s.includes(pat)`. -/
def containsSub (s pat : String) : Bool :=
  hasSub s.toList pat.toList

/-- A JavaScript `Error`, possibly tagged with an HTTP status code by
`createError`. -/
structure JsErr where
  statusCode : Option Nat := none
  message : String
deriving Repr, DecidableEq

/-- `createError(statusCode, message)` from the source: an error carrying a
status code. -/
def createError (statusCode : Nat) (message : String) : JsErr :=
  { statusCode := some statusCode, message := message }

/-- The DynamoDB key-schema failure message fragment tested by
`throwWithSchemaHint`. -/
def schemaNeedle : String :=
  "The provided key element does not match the schema"

/-- The diagnostic message raised for a cart-table key-schema mismatch. -/
def schemaHintMessage : String :=
  "Cart table schema mismatch: expected partition key userId and sort key itemId (both String). Please recreate the CartTable with that key schema."

/-- `throwWithSchemaHint(error)`: the error actually thrown when a wrapped
durable-store call rejects with `error`.  A key-schema mismatch is replaced
by a 500 error with a diagnostic hint; every other error is rethrown
unchanged. -/
def throwWithSchemaHint (error : JsErr) : JsErr :=
  if containsSub error.message schemaNeedle then
    createError 500 schemaHintMessage
  else
    error

/-- A record of the items (catalog) table.  Every non-key attribute may be
absent, matching a schemaless DynamoDB row. -/
structure ProductRec where
  id : String
  storeId : Option String := none
  storefrontId : Option String := none
  name : Option String := none
  price : Option Int := none
  image : Option String := none
  category : Option String := none
  description : Option String := none
  averageRating : Option Int := none
  quantity : Option Int := none
deriving Repr, DecidableEq

/-- A durable cart-table row, keyed by `(userId, itemId)`.  Non-key
attributes may be absent in pre-existing rows. -/
structure CartRow where
  userId : String
  itemId : String
  quantity : Option Int := none
  storeId : Option String := none
  storefrontId : Option String := none
  updatedAt : Option Nat := none
deriving Repr, DecidableEq

/-- One element of `cart.items` as produced by `fetchCartFromDynamo`. -/
structure CartItemView where
  itemId : String
  quantity : Int
  storeId : Option String
  updatedAt : Option Nat
deriving Repr, DecidableEq

/-- The cart aggregate (also the shape cached in Redis). -/
structure Cart where
  userId : String
  storeId : Option String
  items : List CartItemView
  updatedAt : Nat
deriving Repr, DecidableEq

/-- One line of the enriched response produced by `enrichCart`. -/
structure EnrichedItem where
  itemId : String
  quantity : Int
  storeId : Option String
  name : String
  price : Int
  image : String
  category : String
  description : String
  averageRating : Int
  availableQuantity : Option Int
deriving Repr, DecidableEq

/-- The enriched cart returned to the HTTP layer. -/
structure EnrichedCart where
  userId : String
  storeId : Option String
  items : List EnrichedItem
  updatedAt : Nat
deriving Repr, DecidableEq

/-- External calls issued by the service, recorded in an event trace. -/
inductive Ev where
  | qryCart (userId : String)
  | getItem (itemId : String)
  | putCart (row : CartRow)
  | delCart (userId itemId : String)
  | batchDelCart (userId : String) (itemIds : List String)
  | batchGetItems (itemIds : List String)
  | cGet (key : String)
  | cSet (key : String) (cart : Cart)
  | cDel (key : String)
deriving Repr, DecidableEq

/-- The world state threaded through every operation. -/
structure St where
  cartTable : List CartRow
  itemsTable : List ProductRec
  cachePresent : Bool
  cacheFailing : Bool
  cache : List (String × Cart)
  cartFault : Option JsErr
  clock : Nat
  trace : List Ev
deriving Repr

/-- `cart:${userId}` -/
def cacheKey (userId : String) : String := "cart:" ++ userId

/-- Association-list lookup for the cache. -/
def assocGet : List (String × Cart) → String → Option Cart
  | [], _ => none
  | (k, v) :: rest, key => if k = key then some v else assocGet rest key

/-- Association-list store (overwrite or append) for the cache. -/
def assocSet : List (String × Cart) → String → Cart → List (String × Cart)
  | [], k, v => [(k, v)]
  | (k0, v0) :: rest, k, v =>
      if k0 = k then (k, v) :: rest else (k0, v0) :: assocSet rest k v

/-- Association-list delete for the cache. -/
def assocDel (c : List (String × Cart)) (k : String) : List (String × Cart) :=
  c.filter (fun kv => kv.1 ≠ k)

/-- `readCartFromCache(userId)`: `null` when no client is configured; a
network call otherwise, whose failure is downgraded to a miss. -/
def readCartFromCache (userId : String) (s : St) : Option Cart × St :=
  if !s.cachePresent then (none, s)
  else
    let s1 := { s with trace := s.trace ++ [Ev.cGet (cacheKey userId)] }
    if s1.cacheFailing then (none, s1)
    else (assocGet s1.cache (cacheKey userId), s1)

/-- `writeCartToCache(cart)`: best-effort snapshot write; failures are
swallowed. -/
def writeCartToCache (cart : Cart) (s : St) : St :=
  if !s.cachePresent then s
  else
    let s1 := { s with trace := s.trace ++ [Ev.cSet (cacheKey cart.userId) cart] }
    if s1.cacheFailing then s1
    else { s1 with cache := assocSet s1.cache (cacheKey cart.userId) cart }

/-- `clearCartCache(userId)`: best-effort snapshot delete; failures are
swallowed. -/
def clearCartCache (userId : String) (s : St) : St :=
  if !s.cachePresent then s
  else
    let s1 := { s with trace := s.trace ++ [Ev.cDel (cacheKey userId)] }
    if s1.cacheFailing then s1
    else { s1 with cache := assocDel s1.cache (cacheKey userId) }

/-- The DynamoDB `Query` on the cart table: all rows of one user. -/
def queryRows (tbl : List CartRow) (userId : String) : List CartRow :=
  tbl.filter (fun r => r.userId = userId)

/-- DynamoDB `Put` semantics on the cart table: replace the row with the
same `(userId, itemId)` key, or append. -/
def putRow : List CartRow → CartRow → List CartRow
  | [], row => [row]
  | r :: rs, row =>
      if r.userId = row.userId ∧ r.itemId = row.itemId then row :: rs
      else r :: putRow rs row

/-- DynamoDB `Delete` semantics on the cart table: drop the row with the
given key (a no-op when absent). -/
def deleteRow (tbl : List CartRow) (userId itemId : String) : List CartRow :=
  tbl.filter (fun r => ¬(r.userId = userId ∧ r.itemId = itemId))

/-- The per-row projection done by `fetchCartFromDynamo`. -/
def rowToView (r : CartRow) : CartItemView :=
  { itemId := r.itemId
    quantity := r.quantity.getD 1
    storeId := jsOr r.storeId r.storefrontId
    updatedAt := r.updatedAt }

/-- `items[0]?.storeId || null` -/
def cartStoreOf (items : List CartItemView) : Option String :=
  jsOr (match items.head? with | some it => it.storeId | none => none) none

/-- The cart value `fetchCartFromDynamo` assembles from the queried rows. -/
def fetchedCartOf (tbl : List CartRow) (userId : String) (clk : Nat) : Cart :=
  let items := (queryRows tbl userId).map rowToView
  { userId := userId
    storeId := cartStoreOf items
    items := items
    updatedAt := clk }

/-- `fetchCartFromDynamo(userId)`: query the authoritative rows; a rejection
is routed through `throwWithSchemaHint`. -/
def fetchCartFromDynamo (userId : String) (s : St) : Except JsErr Cart × St :=
  let s1 := { s with trace := s.trace ++ [Ev.qryCart userId] }
  match s1.cartFault with
  | some e => (Except.error (throwWithSchemaHint e), s1)
  | none =>
      (Except.ok (fetchedCartOf s1.cartTable userId s1.clock),
       { s1 with clock := s1.clock + 1 })

/-- The DynamoDB `PutCommand` on the cart table, wrapped with
`throwWithSchemaHint`. -/
def putCartRow (row : CartRow) (s : St) : Except JsErr Unit × St :=
  let s1 := { s with trace := s.trace ++ [Ev.putCart row] }
  match s1.cartFault with
  | some e => (Except.error (throwWithSchemaHint e), s1)
  | none => (Except.ok (), { s1 with cartTable := putRow s1.cartTable row })

/-- The DynamoDB `DeleteCommand` on the cart table, wrapped with
`throwWithSchemaHint`. -/
def deleteCartRow (userId itemId : String) (s : St) : Except JsErr Unit × St :=
  let s1 := { s with trace := s.trace ++ [Ev.delCart userId itemId] }
  match s1.cartFault with
  | some e => (Except.error (throwWithSchemaHint e), s1)
  | none => (Except.ok (), { s1 with cartTable := deleteRow s1.cartTable userId itemId })

/-- The DynamoDB `BatchWriteCommand` of delete requests on the cart table,
wrapped with `throwWithSchemaHint`. -/
def batchDeleteCartRows (userId : String) (itemIds : List String) (s : St) :
    Except JsErr Unit × St :=
  let s1 := { s with trace := s.trace ++ [Ev.batchDelCart userId itemIds] }
  match s1.cartFault with
  | some e => (Except.error (throwWithSchemaHint e), s1)
  | none =>
      (Except.ok (),
       { s1 with cartTable := itemIds.foldl (fun t i => deleteRow t userId i) s1.cartTable })

/-- First record of the items table with the given id (the catalog `Get` /
the product map built from a catalog `BatchGet`). -/
def findItem : List ProductRec → String → Option ProductRec
  | [], _ => none
  | p :: ps, i => if p.id = i then some p else findItem ps i

/-- `loadProductDetails(itemIds)` as a pure value: the catalog records found
for the requested ids (the empty-input case issues no call and yields an
empty map). -/
def loadProductDetails (itemsTable : List ProductRec) (itemIds : List String) :
    List ProductRec :=
  if itemIds.isEmpty then []
  else itemIds.filterMap (fun i => findItem itemsTable i)

/-- The placeholder product image used when the catalog has none. -/
def DEFAULT_IMAGE : String :=
  "https://images.unsplash.com/photo-1441986300917-64674bd600d8?auto=format&fit=crop&w=800&q=80"

/-- The merge of one cart line with its catalog record (`productMap.get(...)
|| {}`), substituting defaults for missing fields. -/
def mkEnrichedItem (found : List ProductRec) (item : CartItemView) : EnrichedItem :=
  let product := findItem found item.itemId
  { itemId := item.itemId
    quantity := item.quantity
    storeId :=
      jsOr (jsOr (jsOr item.storeId (product.bind ProductRec.storeId))
        (product.bind ProductRec.storefrontId)) none
    name := jsOrD (product.bind ProductRec.name) "Item"
    price := (product.bind ProductRec.price).getD 0
    image := jsOrD (product.bind ProductRec.image) DEFAULT_IMAGE
    category := jsOrD (product.bind ProductRec.category) "General"
    description := jsOrD (product.bind ProductRec.description) ""
    averageRating := (product.bind ProductRec.averageRating).getD 0
    availableQuantity := product.bind ProductRec.quantity }

/-- The enriched cart `enrichCart` returns, as a pure value of the catalog
table and the base cart. -/
def enrichedOf (itemsTable : List ProductRec) (cart : Cart) : EnrichedCart :=
  let ids := cart.items.map (fun it => it.itemId)
  let found := loadProductDetails itemsTable ids
  let enrichedItems := cart.items.map (mkEnrichedItem found)
  { userId := cart.userId
    storeId :=
      jsOr (jsOr cart.storeId
        (match enrichedItems.head? with | some it => it.storeId | none => none)) none
    items := enrichedItems
    updatedAt := cart.updatedAt }

/-- `enrichCart(cart)`: batch-fetch the catalog records (skipping the call
for an empty cart) and merge them into the response. -/
def enrichCart (cart : Cart) (s : St) : EnrichedCart × St :=
  let ids := cart.items.map (fun it => it.itemId)
  let s1 :=
    if ids.isEmpty then s
    else { s with trace := s.trace ++ [Ev.batchGetItems ids] }
  (enrichedOf s.itemsTable cart, s1)

/-- `getCartForUser(userId)`: cache-aside read, refreshing the snapshot on a
miss, always enriching. -/
def getCartForUser (userId : String) (s : St) : Except JsErr EnrichedCart × St :=
  let (cachedCart, s1) := readCartFromCache userId s
  match cachedCart with
  | some baseCart =>
      let (ec, s2) := enrichCart baseCart s1
      (Except.ok ec, s2)
  | none =>
      match fetchCartFromDynamo userId s1 with
      | (Except.error e, s2) => (Except.error e, s2)
      | (Except.ok baseCart, s2) =>
          let s3 := writeCartToCache baseCart s2
          let (ec, s4) := enrichCart baseCart s3
          (Except.ok ec, s4)

/-- `addItemToCart(userId, itemId, quantity)`: validate, resolve the item's
storefront, enforce the single-storefront invariant against the durable
state, upsert the line, refetch, refresh the cache and enrich. -/
def addItemToCart (userId itemId : String) (quantity : Int) (s : St) :
    Except JsErr EnrichedCart × St :=
  if itemId = "" then (Except.error (createError 400 "itemId is required"), s)
  else if quantity < 1 then
    (Except.error (createError 400 "Quantity must be at least 1"), s)
  else
    let s1 := { s with trace := s.trace ++ [Ev.getItem itemId] }
    match findItem s1.itemsTable itemId with
    | none => (Except.error (createError 404 "Item not found"), s1)
    | some item =>
        let storeId := jsOr item.storeId item.storefrontId
        if !(strTruthy storeId) then
          (Except.error (createError 400 "Item is missing storefront information"), s1)
        else
          match fetchCartFromDynamo userId s1 with
          | (Except.error e, s2) => (Except.error e, s2)
          | (Except.ok existingCart, s2) =>
              if strTruthy existingCart.storeId && existingCart.storeId != storeId
                  && decide (0 < existingCart.items.length) then
                (Except.error
                  (createError 400 "Cart already contains items from another store"), s2)
              else
                let updatedItem : CartRow :=
                  { userId := userId
                    itemId := itemId
                    storeId := storeId
                    quantity := some quantity
                    updatedAt := some s2.clock }
                let s3 := { s2 with clock := s2.clock + 1 }
                match putCartRow updatedItem s3 with
                | (Except.error e, s4) => (Except.error e, s4)
                | (Except.ok _, s4) =>
                    match fetchCartFromDynamo userId s4 with
                    | (Except.error e, s5) => (Except.error e, s5)
                    | (Except.ok freshCart, s5) =>
                        let s6 := writeCartToCache freshCart s5
                        let (ec, s7) := enrichCart freshCart s6
                        (Except.ok ec, s7)

/-- `removeItemFromCart(userId, itemId)`: delete the row (idempotent),
refetch, refresh the cache and enrich. -/
def removeItemFromCart (userId itemId : String) (s : St) :
    Except JsErr EnrichedCart × St :=
  if itemId = "" then (Except.error (createError 400 "itemId is required"), s)
  else
    match deleteCartRow userId itemId s with
    | (Except.error e, s1) => (Except.error e, s1)
    | (Except.ok _, s1) =>
        match fetchCartFromDynamo userId s1 with
        | (Except.error e, s2) => (Except.error e, s2)
        | (Except.ok freshCart, s2) =>
            let s3 := writeCartToCache freshCart s2
            let (ec, s4) := enrichCart freshCart s3
            (Except.ok ec, s4)

/-- `updateItemQuantity(userId, itemId, quantity)`: delegate to removal when
the quantity drops below 1, otherwise to `addItemToCart`. -/
def updateItemQuantity (userId itemId : String) (quantity : Int) (s : St) :
    Except JsErr EnrichedCart × St :=
  if quantity < 1 then removeItemFromCart userId itemId s
  else addItemToCart userId itemId quantity s

/-- The `for (let i = 0; i < items.length; i += 25)` chunking of
`clearCartForUser`. -/
def chunks25 (l : List CartItemView) : List (List CartItemView) :=
  match l with
  | [] => []
  | x :: xs => ((x :: xs).take 25) :: chunks25 ((x :: xs).drop 25)
termination_by l.length
decreasing_by simp [List.length_drop]; omega

/-- The sequential `BatchWriteCommand` loop over the chunks. -/
def deleteChunks (userId : String) : List (List CartItemView) → St → Except JsErr Unit × St
  | [], s => (Except.ok (), s)
  | chunk :: rest, s =>
      match batchDeleteCartRows userId (chunk.map (fun it => it.itemId)) s with
      | (Except.error e, s1) => (Except.error e, s1)
      | (Except.ok _, s1) => deleteChunks userId rest s1

/-- `clearCartForUser(userId)`: fetch all lines, delete them in chunks of at
most 25, drop and rewrite the cache snapshot, and return an empty enriched
cart. -/
def clearCartForUser (userId : String) (s : St) : Except JsErr EnrichedCart × St :=
  match fetchCartFromDynamo userId s with
  | (Except.error e, s1) => (Except.error e, s1)
  | (Except.ok existingCart, s1) =>
      let items := existingCart.items
      let step :=
        if 0 < items.length then deleteChunks userId (chunks25 items) s1
        else (Except.ok (), s1)
      match step with
      | (Except.error e, s2) => (Except.error e, s2)
      | (Except.ok _, s2) =>
          let emptyCart : Cart :=
            { userId := userId, storeId := none, items := [], updatedAt := s2.clock }
          let s3 := { s2 with clock := s2.clock + 1 }
          let s4 := clearCartCache userId s3
          let s5 := writeCartToCache emptyCart s4
          let (ec, s6) := enrichCart emptyCart s5
          (Except.ok ec, s6)

/-! ### Basic simp lemmas -/

theorem strTruthy_none : strTruthy none = false := rfl

theorem strTruthy_some (s : String) : strTruthy (some s) = (s != "") := rfl

/-! ### Claim C1 -/

/-- C1: a non-empty durable cart with storefront `A` rejects `addItem` for a
catalog item of storefront `B ≠ A` with the conflict error, and the durable
cart rows are unchanged by the rejected call. -/
theorem addItem_conflict_rejects_and_preserves_rows
    (s : St) (userId itemId : String) (quantity : Int) (A B : String) (p : ProductRec)
    (hfault : s.cartFault = none)
    (hitem : itemId ≠ "")
    (hqty : 1 ≤ quantity)
    (hcat : findItem s.itemsTable itemId = some p)
    (hB : jsOr p.storeId p.storefrontId = some B) (hBne : B ≠ "")
    (hA : (fetchedCartOf s.cartTable userId s.clock).storeId = some A) (hAne : A ≠ "")
    (hnonempty : (fetchedCartOf s.cartTable userId s.clock).items ≠ [])
    (hAB : A ≠ B) :
    (addItemToCart userId itemId quantity s).1 =
      Except.error (createError 400 "Cart already contains items from another store") ∧
    (addItemToCart userId itemId quantity s).2.cartTable = s.cartTable := by
  have hq' : ¬ quantity < 1 := by omega
  have hlen : 0 < (fetchedCartOf s.cartTable userId s.clock).items.length :=
    List.length_pos.mpr hnonempty
  simp [addItemToCart, hitem, hq', hcat, hB, hBne, fetchCartFromDynamo, hfault,
    hA, hAne, hAB, hlen, strTruthy]

/-- A state with clock 0 and an empty trace, for concrete evaluations. -/
def mkSt (ct : List CartRow) (it : List ProductRec) (p f : Bool)
    (c : List (String × Cart)) (cf : Option JsErr) : St :=
  { cartTable := ct, itemsTable := it, cachePresent := p, cacheFailing := f,
    cache := c, cartFault := cf, clock := 0, trace := [] }

/-- Witness for C1: a one-line cart from storefront `A` rejects an item of
storefront `B`. -/
theorem addItem_conflict_rejects_witness :
    (addItemToCart "u" "y" 1
        (mkSt [{ userId := "u", itemId := "x", storeId := some "A" }]
          [{ id := "y", storeId := some "B" }] false false [] none)).1 =
      Except.error (createError 400 "Cart already contains items from another store") ∧
    (addItemToCart "u" "y" 1
        (mkSt [{ userId := "u", itemId := "x", storeId := some "A" }]
          [{ id := "y", storeId := some "B" }] false false [] none)).2.cartTable =
      [{ userId := "u", itemId := "x", storeId := some "A" }] :=
  addItem_conflict_rejects_and_preserves_rows _ "u" "y" 1 "A" "B"
    { id := "y", storeId := some "B" }
    (by decide) (by decide) (by decide) (by decide) (by decide) (by decide)
    (by decide) (by decide) (by decide) (by decide)

/-! ### Claim C7 -/

/-- C7: a cart-table failure whose message indicates a key-schema mismatch
is surfaced as a distinct 500 error whose message carries the expected key
layout; every other cart-table failure is rethrown unchanged; and a failing
cart-table call makes the operation surface exactly the error produced by
`throwWithSchemaHint`. -/
theorem schemaHint_classifies_store_failures
    (e : JsErr) (s : St) (userId : String)
    (hfault : s.cartFault = some e) (hnc : s.cachePresent = false) :
    (containsSub e.message schemaNeedle = true →
      throwWithSchemaHint e = createError 500 schemaHintMessage) ∧
    containsSub schemaHintMessage "expected partition key userId and sort key itemId" = true ∧
    (containsSub e.message schemaNeedle = false → throwWithSchemaHint e = e) ∧
    (getCartForUser userId s).1 = Except.error (throwWithSchemaHint e) ∧
    (clearCartForUser userId s).1 = Except.error (throwWithSchemaHint e) ∧
    (∀ itemId, itemId ≠ "" →
      (removeItemFromCart userId itemId s).1 = Except.error (throwWithSchemaHint e)) ∧
    (∀ itemId quantity p, itemId ≠ "" → ¬ quantity < 1 →
      findItem s.itemsTable itemId = some p →
      strTruthy (jsOr p.storeId p.storefrontId) = true →
      (addItemToCart userId itemId quantity s).1 = Except.error (throwWithSchemaHint e)) := by
  refine ⟨?_, by decide, ?_, ?_, ?_, ?_, ?_⟩
  · intro h; simp [throwWithSchemaHint, h]
  · intro h; simp [throwWithSchemaHint, h]
  · simp [getCartForUser, readCartFromCache, hnc, fetchCartFromDynamo, hfault]
  · simp [clearCartForUser, fetchCartFromDynamo, hfault]
  · intro itemId hi
    simp [removeItemFromCart, hi, deleteCartRow, hfault]
  · intro itemId quantity p hi hq hp hsf
    simp [addItemToCart, hi, hq, hp, hsf, fetchCartFromDynamo, hfault]

/-- Witness for C7 at a schema-mismatch error and a concrete state. -/
theorem schemaHint_classifies_witness :
    (containsSub (JsErr.mk none schemaNeedle).message schemaNeedle = true →
      throwWithSchemaHint (JsErr.mk none schemaNeedle) = createError 500 schemaHintMessage) ∧
    containsSub schemaHintMessage "expected partition key userId and sort key itemId" = true ∧
    (containsSub (JsErr.mk none schemaNeedle).message schemaNeedle = false →
      throwWithSchemaHint (JsErr.mk none schemaNeedle) = JsErr.mk none schemaNeedle) ∧
    (getCartForUser "u" (mkSt [] [] false false [] (some (JsErr.mk none schemaNeedle)))).1 =
      Except.error (throwWithSchemaHint (JsErr.mk none schemaNeedle)) ∧
    (clearCartForUser "u" (mkSt [] [] false false [] (some (JsErr.mk none schemaNeedle)))).1 =
      Except.error (throwWithSchemaHint (JsErr.mk none schemaNeedle)) ∧
    (∀ itemId, itemId ≠ "" →
      (removeItemFromCart "u" itemId
          (mkSt [] [] false false [] (some (JsErr.mk none schemaNeedle)))).1 =
        Except.error (throwWithSchemaHint (JsErr.mk none schemaNeedle))) ∧
    (∀ itemId quantity p, itemId ≠ "" → ¬ quantity < 1 →
      findItem (mkSt [] [] false false [] (some (JsErr.mk none schemaNeedle))).itemsTable
          itemId = some p →
      strTruthy (jsOr p.storeId p.storefrontId) = true →
      (addItemToCart "u" itemId quantity
          (mkSt [] [] false false [] (some (JsErr.mk none schemaNeedle)))).1 =
        Except.error (throwWithSchemaHint (JsErr.mk none schemaNeedle))) :=
  schemaHint_classifies_store_failures (JsErr.mk none schemaNeedle) _ "u" (by rfl) (by rfl)

/-! ### Claim C9 -/

/-- C9: when the catalog record exists but carries no storefront identifier,
`addItemToCart` fails with the validation error `Item is missing storefront
information` and neither the durable cart table nor the cache is touched. -/
theorem addItem_missing_storefront_rejected
    (s : St) (userId itemId : String) (quantity : Int) (p : ProductRec)
    (hitem : itemId ≠ "") (hq : ¬ quantity < 1)
    (hcat : findItem s.itemsTable itemId = some p)
    (hsf : strTruthy (jsOr p.storeId p.storefrontId) = false) :
    (addItemToCart userId itemId quantity s).1 =
      Except.error (createError 400 "Item is missing storefront information") ∧
    (addItemToCart userId itemId quantity s).2.cartTable = s.cartTable ∧
    (addItemToCart userId itemId quantity s).2.cache = s.cache ∧
    (addItemToCart userId itemId quantity s).2.trace = s.trace ++ [Ev.getItem itemId] := by
  simp [addItemToCart, hitem, hq, hcat, hsf]

/-- Witness for C9: a catalog record with neither `storeId` nor
`storefrontId`. -/
theorem addItem_missing_storefront_witness :
    (addItemToCart "u" "y" 1 (mkSt [] [{ id := "y" }] false false [] none)).1 =
      Except.error (createError 400 "Item is missing storefront information") ∧
    (addItemToCart "u" "y" 1 (mkSt [] [{ id := "y" }] false false [] none)).2.cartTable =
      [] ∧
    (addItemToCart "u" "y" 1 (mkSt [] [{ id := "y" }] false false [] none)).2.cache = [] ∧
    (addItemToCart "u" "y" 1 (mkSt [] [{ id := "y" }] false false [] none)).2.trace =
      [] ++ [Ev.getItem "y"] :=
  addItem_missing_storefront_rejected _ "u" "y" 1 { id := "y" }
    (by decide) (by decide) (by decide) (by decide)

/-! ### Characterizing `getCartForUser` -/

/-- Without a cart-table fault, `getCartForUser` returns the enrichment of
the cached snapshot on a hit, and of the freshly fetched durable cart on a
miss. -/
theorem getCartForUser_result (userId : String) (s : St) (hf : s.cartFault = none) :
    (getCartForUser userId s).1 =
      Except.ok (enrichedOf s.itemsTable
        (match (readCartFromCache userId s).1 with
         | some c => c
         | none => fetchedCartOf s.cartTable userId s.clock)) := by
  cases hp : s.cachePresent <;> cases hq : s.cacheFailing <;>
    simp [getCartForUser, readCartFromCache, writeCartToCache, enrichCart,
      fetchCartFromDynamo, hf, hp, hq]
  · cases hg : assocGet s.cache (cacheKey userId) <;> simp [hg]

/-- `getCartForUser` never changes the durable cart table. -/
theorem getCartForUser_cartTable (userId : String) (s : St) :
    ((getCartForUser userId s).2).cartTable = s.cartTable := by
  cases hp : s.cachePresent <;> cases hq : s.cacheFailing <;>
    cases hf : s.cartFault <;>
      simp [getCartForUser, readCartFromCache, writeCartToCache, enrichCart,
        fetchCartFromDynamo, hp, hq, hf]
  all_goals (cases hg : assocGet s.cache (cacheKey userId) <;> try simp [hg])
  all_goals (first | (split <;> rfl) | rfl)

/-! ### Claim C6 -/

/-- `findItem` only returns a record with the requested id. -/
theorem findItem_id (tbl : List ProductRec) (i : String) (p : ProductRec)
    (h : findItem tbl i = some p) : p.id = i := by
  induction tbl with
  | nil => simp [findItem] at h
  | cons q qs ih =>
      by_cases hq : q.id = i
      · simp [findItem, hq] at h; subst h; exact hq
      · simp [findItem, hq] at h; exact ih h

/-- An id that has no catalog record also has no record among the records
found for any requested id list. -/
theorem findItem_filterMap_none (tbl : List ProductRec) (ids : List String)
    (i : String) (h : findItem tbl i = none) :
    findItem (ids.filterMap (fun j => findItem tbl j)) i = none := by
  induction ids with
  | nil => simp [findItem]
  | cons j js ih =>
      simp only [List.filterMap_cons]
      cases hj : findItem tbl j with
      | none => exact ih
      | some p =>
          have hpj : p.id = j := findItem_id tbl j p hj
          have hji : j ≠ i := by
            intro hc
            rw [hc] at hj
            rw [h] at hj
            exact Option.noConfusion hj
          have hne : p.id ≠ i := by rw [hpj]; exact hji
          simpa [findItem, hne] using ih

/-- An id that has no catalog record also has no record in the batch-get
response, whatever ids were requested. -/
theorem findItem_loadProductDetails_none (tbl : List ProductRec) (ids : List String)
    (i : String) (h : findItem tbl i = none) :
    findItem (loadProductDetails tbl ids) i = none := by
  rw [loadProductDetails]
  split
  · simp [findItem]
  · exact findItem_filterMap_none tbl ids i h

/-- C6: enrichment merges every cart line with its catalog record — one
output line per input line, keeping `itemId` and `quantity` — and a line
whose catalog record is missing gets the safe defaults (generic name, zero
price, placeholder image) instead of failing; with no cart-table fault the
enclosing read operation always succeeds, whatever the catalog holds. -/
theorem enrichment_merges_and_never_fails
    (itemsTable : List ProductRec) (cart : Cart) :
    (enrichedOf itemsTable cart).items.length = cart.items.length ∧
    (∀ line ∈ cart.items, ∃ e ∈ (enrichedOf itemsTable cart).items,
      e.itemId = line.itemId ∧ e.quantity = line.quantity ∧
      (findItem itemsTable line.itemId = none →
        e.name = "Item" ∧ e.price = 0 ∧ e.image = DEFAULT_IMAGE)) ∧
    (∀ (userId : String) (s : St), s.cartFault = none →
      ∃ ec, (getCartForUser userId s).1 = Except.ok ec) := by
  refine ⟨by simp [enrichedOf], ?_, ?_⟩
  · intro line hline
    refine ⟨mkEnrichedItem
      (loadProductDetails itemsTable (cart.items.map (fun it => it.itemId))) line,
      ?_, rfl, rfl, ?_⟩
    · simp only [enrichedOf]
      exact List.mem_map_of_mem _ hline
    · intro hnone
      have h2 := findItem_loadProductDetails_none itemsTable
        (cart.items.map (fun it => it.itemId)) line.itemId hnone
      simp [mkEnrichedItem, h2, jsOrD, strTruthy]
  · intro userId s hf
    exact ⟨_, getCartForUser_result userId s hf⟩

/-- A one-line cart used by concrete evaluations. -/
def cartOneLine : Cart :=
  { userId := "u", storeId := none,
    items := [{ itemId := "x", quantity := 2, storeId := none, updatedAt := none }],
    updatedAt := 0 }

/-- Witness for C6 at a one-line cart whose catalog record is missing. -/
theorem enrichment_merges_witness :
    (enrichedOf [] cartOneLine).items.length = cartOneLine.items.length ∧
    (∃ e ∈ (enrichedOf [] cartOneLine).items,
      e.itemId = "x" ∧ e.quantity = 2 ∧
      (findItem [] "x" = none →
        e.name = "Item" ∧ e.price = 0 ∧ e.image = DEFAULT_IMAGE)) ∧
    (∃ ec, (getCartForUser "u" (mkSt [] [] false false [] none)).1 = Except.ok ec) := by
  have h := enrichment_merges_and_never_fails [] cartOneLine
  exact ⟨h.1,
    h.2.1 { itemId := "x", quantity := 2, storeId := none, updatedAt := none } (by decide),
    h.2.2 "u" (mkSt [] [] false false [] none) rfl⟩

/-! ### Claim C8 -/

/-- The durable cart rows written (`PutCommand`) along a trace. -/
def putsOf (t : List Ev) : List CartRow :=
  t.filterMap (fun e => match e with | Ev.putCart r => some r | _ => none)

theorem putsOf_append (t u : List Ev) : putsOf (t ++ u) = putsOf t ++ putsOf u := by
  simp [putsOf]

/-- `getCartForUser` never issues a durable put. -/
theorem putsOf_getCartForUser (userId : String) (s : St) :
    putsOf ((getCartForUser userId s).2.trace) = putsOf s.trace := by
  cases hp : s.cachePresent <;> cases hq : s.cacheFailing <;> cases hf : s.cartFault <;>
    simp [getCartForUser, readCartFromCache, writeCartToCache, enrichCart,
      fetchCartFromDynamo, hp, hq, hf, putsOf]
  all_goals (cases hg : assocGet s.cache (cacheKey userId) <;> try simp [hg, putsOf])
  all_goals (first | (split <;> simp [putsOf]) | simp [putsOf] | rfl)

/-- `removeItemFromCart` never issues a durable put. -/
theorem putsOf_removeItemFromCart (userId itemId : String) (s : St) :
    putsOf ((removeItemFromCart userId itemId s).2.trace) = putsOf s.trace := by
  by_cases hi : itemId = ""
  · simp [removeItemFromCart, hi]
  · cases hp : s.cachePresent <;> cases hq : s.cacheFailing <;> cases hf : s.cartFault <;>
      simp [removeItemFromCart, hi, deleteCartRow, writeCartToCache, enrichCart,
        fetchCartFromDynamo, hp, hq, hf, putsOf]
    all_goals (split <;> simp [putsOf])

/-- Folding the per-key deletes of one batch-write over the table. -/
def deleteIds (tbl : List CartRow) (userId : String) (ids : List String) : List CartRow :=
  ids.foldl (fun t i => deleteRow t userId i) tbl

/-- Without a cart-table fault, the chunk loop of `clearCartForUser` issues
one batch-delete request per chunk and applies all the deletes. -/
theorem deleteChunks_ok (userId : String) (chunks : List (List CartItemView)) (s : St)
    (hf : s.cartFault = none) :
    deleteChunks userId chunks s =
      (Except.ok (),
       { s with
         cartTable := chunks.foldl
           (fun t c => deleteIds t userId (c.map (fun it => it.itemId))) s.cartTable,
         trace := s.trace ++
           chunks.map (fun c => Ev.batchDelCart userId (c.map (fun it => it.itemId))) }) := by
  induction chunks generalizing s with
  | nil => simp [deleteChunks]
  | cons c cs ih =>
      simp only [deleteChunks, batchDeleteCartRows, hf]
      simp only [ih]
      simp [deleteIds, List.foldl_cons, List.append_assoc]

/-- Batch-delete events contribute no durable puts. -/
theorem putsOf_batchDels (userId : String) (chunks : List (List CartItemView)) :
    putsOf (chunks.map (fun c => Ev.batchDelCart userId (c.map (fun it => it.itemId)))) = [] := by
  induction chunks with
  | nil => rfl
  | cons c cs ih => simpa [putsOf] using ih

/-- `clearCartForUser` never issues a durable put. -/
theorem putsOf_clearCartForUser (userId : String) (s : St) :
    putsOf ((clearCartForUser userId s).2.trace) = putsOf s.trace := by
  cases hf : s.cartFault with
  | some e => simp [clearCartForUser, fetchCartFromDynamo, hf, putsOf]
  | none =>
      have hdel := deleteChunks_ok userId
        (chunks25 (fetchedCartOf s.cartTable userId s.clock).items)
        { s with clock := s.clock + 1, trace := s.trace ++ [Ev.qryCart userId] }
        (by simp [hf])
      simp only [hf] at hdel
      simp at hdel
      by_cases hlen : 0 < (fetchedCartOf s.cartTable userId s.clock).items.length
      · cases hp : s.cachePresent <;> cases hqf : s.cacheFailing <;>
          simp only [hp, hqf] at hdel <;>
          simp [clearCartForUser, fetchCartFromDynamo, hf, hlen, hdel, clearCartCache,
            writeCartToCache, enrichCart, hp, hqf, putsOf_append,
            putsOf_batchDels, putsOf]
      · cases hp : s.cachePresent <;> cases hqf : s.cacheFailing <;>
          simp [clearCartForUser, fetchCartFromDynamo, hf, hlen, clearCartCache,
            writeCartToCache, enrichCart, hp, hqf, putsOf]

/-- The only durable put `addItemToCart` can issue is its upsert, and that
row carries the validated quantity. -/
theorem putsOf_addItemToCart (userId itemId : String) (quantity : Int) (s : St) :
    putsOf ((addItemToCart userId itemId quantity s).2.trace) = putsOf s.trace ∨
    (¬ quantity < 1 ∧ ∃ row : CartRow, row.quantity = some quantity ∧
      putsOf ((addItemToCart userId itemId quantity s).2.trace) =
        putsOf s.trace ++ [row]) := by
  by_cases hi : itemId = ""
  · left; simp [addItemToCart, hi]
  by_cases hq1 : quantity < 1
  · left; simp [addItemToCart, hi, hq1]
  cases hfi : findItem s.itemsTable itemId with
  | none => left; simp [addItemToCart, hi, hq1, hfi, putsOf]
  | some item =>
      cases hsf : strTruthy (jsOr item.storeId item.storefrontId) with
      | false => left; simp [addItemToCart, hi, hq1, hfi, hsf, putsOf]
      | true =>
          cases hf : s.cartFault with
          | some e =>
              left
              simp [addItemToCart, hi, hq1, hfi, hsf, fetchCartFromDynamo, hf, putsOf]
          | none =>
              by_cases hc : (strTruthy (fetchedCartOf s.cartTable userId s.clock).storeId
                  && ((fetchedCartOf s.cartTable userId s.clock).storeId !=
                      jsOr item.storeId item.storefrontId)
                  && decide (0 < (fetchedCartOf s.cartTable userId s.clock).items.length)) = true
              · left
                simp [addItemToCart, hi, hq1, hfi, hsf, fetchCartFromDynamo, hf, hc, putsOf]
              · right
                refine ⟨hq1,
                  ⟨{ userId := userId, itemId := itemId,
                     storeId := jsOr item.storeId item.storefrontId,
                     quantity := some quantity, updatedAt := some (s.clock + 1) }, rfl, ?_⟩⟩
                cases hp : s.cachePresent <;> cases hqf : s.cacheFailing <;>
                  simp [addItemToCart, hi, hq1, hfi, hsf, hc, fetchCartFromDynamo,
                    putCartRow, writeCartToCache, enrichCart, hf, hp, hqf, putsOf]
                all_goals (split <;> simp [putsOf])

/-- Every row of the list has a stored quantity of at least 1. -/
def qtyOK (rows : List CartRow) : Prop :=
  ∀ r ∈ rows, ∃ q : Int, r.quantity = some q ∧ 1 ≤ q

/-- C8: if every durable put so far wrote a row with quantity at least 1,
the same holds after any of the five operations: no operation ever stores a
cart row with a non-positive quantity. -/
theorem durable_puts_quantity_ge_one (s : St) (userId itemId : String) (quantity : Int)
    (hpre : qtyOK (putsOf s.trace)) :
    qtyOK (putsOf ((getCartForUser userId s).2.trace)) ∧
    qtyOK (putsOf ((addItemToCart userId itemId quantity s).2.trace)) ∧
    qtyOK (putsOf ((updateItemQuantity userId itemId quantity s).2.trace)) ∧
    qtyOK (putsOf ((removeItemFromCart userId itemId s).2.trace)) ∧
    qtyOK (putsOf ((clearCartForUser userId s).2.trace)) := by
  have hadd : ∀ (q : Int), qtyOK (putsOf ((addItemToCart userId itemId q s).2.trace)) := by
    intro q
    rcases putsOf_addItemToCart userId itemId q s with h | ⟨hq1, row, hrow, h⟩
    · rw [h]; exact hpre
    · rw [h]
      intro r hr
      rcases List.mem_append.mp hr with hr | hr
      · exact hpre r hr
      · rcases List.mem_singleton.mp hr with rfl
        exact ⟨q, hrow, by omega⟩
  refine ⟨?_, hadd quantity, ?_, ?_, ?_⟩
  · rw [putsOf_getCartForUser]; exact hpre
  · rw [updateItemQuantity]
    split
    · rw [putsOf_removeItemFromCart]; exact hpre
    · exact hadd quantity
  · rw [putsOf_removeItemFromCart]; exact hpre
  · rw [putsOf_clearCartForUser]; exact hpre

/-- Witness for C8 at a concrete state with an empty trace. -/
theorem durable_puts_quantity_witness :
    qtyOK (putsOf ((getCartForUser "u"
      (mkSt [] [{ id := "y", storeId := some "B" }] false false [] none)).2.trace)) ∧
    qtyOK (putsOf ((addItemToCart "u" "y" 3
      (mkSt [] [{ id := "y", storeId := some "B" }] false false [] none)).2.trace)) ∧
    qtyOK (putsOf ((updateItemQuantity "u" "y" 3
      (mkSt [] [{ id := "y", storeId := some "B" }] false false [] none)).2.trace)) ∧
    qtyOK (putsOf ((removeItemFromCart "u" "y"
      (mkSt [] [{ id := "y", storeId := some "B" }] false false [] none)).2.trace)) ∧
    qtyOK (putsOf ((clearCartForUser "u"
      (mkSt [] [{ id := "y", storeId := some "B" }] false false [] none)).2.trace)) :=
  durable_puts_quantity_ge_one _ "u" "y" 3 (by simp [mkSt, putsOf, qtyOK])

/-! ### Claim C10 -/

/-- Is the event a durable cart-table query? -/
def isQryCartEv : Ev → Bool
  | Ev.qryCart _ => true
  | _ => false

/-- Is the event a cache write? -/
def isCSetEv : Ev → Bool
  | Ev.cSet _ _ => true
  | _ => false

/-- C10: on a cache hit `getCartForUser` issues no durable query of cart
rows and no cache write (so the snapshot and its TTL are untouched), and on
every state whatsoever it leaves the durable cart table unchanged. -/
theorem getCart_cache_hit_frame
    (s : St) (userId : String) (snap : Cart)
    (hp : s.cachePresent = true) (hqf : s.cacheFailing = false)
    (hhit : assocGet s.cache (cacheKey userId) = some snap) :
    (getCartForUser userId s).2.trace.filter isQryCartEv = s.trace.filter isQryCartEv ∧
    (getCartForUser userId s).2.trace.filter isCSetEv = s.trace.filter isCSetEv ∧
    (getCartForUser userId s).2.cache = s.cache ∧
    (∀ (s2 : St) (u2 : String), ((getCartForUser u2 s2).2).cartTable = s2.cartTable) := by
  refine ⟨?_, ?_, ?_, fun s2 u2 => getCartForUser_cartTable u2 s2⟩ <;>
    simp [getCartForUser, readCartFromCache, enrichCart, hp, hqf, hhit,
      List.filter_append, isQryCartEv, isCSetEv] <;>
    split <;>
    simp [isQryCartEv, isCSetEv, List.filter_append]

/-- Witness for C10 at a state whose cache holds a snapshot for the user. -/
theorem getCart_cache_hit_witness :
    (getCartForUser "u"
        (mkSt [] [] true false [(cacheKey "u", cartOneLine)] none)).2.trace.filter
      isQryCartEv = List.filter isQryCartEv [] ∧
    (getCartForUser "u"
        (mkSt [] [] true false [(cacheKey "u", cartOneLine)] none)).2.trace.filter
      isCSetEv = List.filter isCSetEv [] ∧
    (getCartForUser "u"
        (mkSt [] [] true false [(cacheKey "u", cartOneLine)] none)).2.cache =
      [(cacheKey "u", cartOneLine)] ∧
    (∀ (s2 : St) (u2 : String), ((getCartForUser u2 s2).2).cartTable = s2.cartTable) :=
  getCart_cache_hit_frame _ "u" cartOneLine rfl rfl (by decide)

/-! ### List-level facts about the durable table and the cache -/

/-- A put row belongs to the table after the put. -/
theorem putRow_mem (tbl : List CartRow) (row : CartRow) : row ∈ putRow tbl row := by
  induction tbl with
  | nil => simp [putRow]
  | cons r rs ih =>
      rw [putRow]
      split
      · exact List.mem_cons_self _ _
      · exact List.mem_cons_of_mem _ ih

/-- Any of the user's rows shows up in the fetched cart as its projected
view. -/
theorem fetchedCartOf_mem (tbl : List CartRow) (userId : String) (clk : Nat)
    (row : CartRow) (hmem : row ∈ tbl) (hu : row.userId = userId) :
    rowToView row ∈ (fetchedCartOf tbl userId clk).items := by
  have hq : row ∈ queryRows tbl userId := by
    rw [queryRows]
    exact List.mem_filter.mpr ⟨hmem, by simp [hu]⟩
  simpa [fetchedCartOf] using List.mem_map_of_mem rowToView hq

/-- Each cart line keeps its id and quantity through enrichment. -/
theorem enrichedOf_mem_line (tbl : List ProductRec) (cart : Cart)
    (line : CartItemView) (hline : line ∈ cart.items) :
    ∃ e ∈ (enrichedOf tbl cart).items,
      e.itemId = line.itemId ∧ e.quantity = line.quantity := by
  refine ⟨mkEnrichedItem
    (loadProductDetails tbl (cart.items.map (fun it => it.itemId))) line, ?_, rfl, rfl⟩
  simp only [enrichedOf]
  exact List.mem_map_of_mem _ hline

/-- Every enriched line comes from a cart line with the same id. -/
theorem enrichedOf_mem_inv (tbl : List ProductRec) (cart : Cart)
    (e : EnrichedItem) (he : e ∈ (enrichedOf tbl cart).items) :
    ∃ line ∈ cart.items, e.itemId = line.itemId := by
  simp only [enrichedOf, List.mem_map] at he
  rcases he with ⟨line, hline, rfl⟩
  exact ⟨line, hline, rfl⟩

/-- Looking up the key just stored yields the stored snapshot. -/
theorem assocGet_assocSet (c : List (String × Cart)) (k : String) (v : Cart) :
    assocGet (assocSet c k v) k = some v := by
  induction c with
  | nil => simp [assocSet, assocGet]
  | cons kv rest ih =>
      rw [assocSet]
      split
      · simp [assocGet]
      · rw [assocGet]
        split
        · next h => exact absurd h (by assumption)
        · exact ih

/-- The durable row `addItemToCart` writes. -/
def addedRow (userId itemId : String) (storeId : Option String) (quantity : Int)
    (clk : Nat) : CartRow :=
  { userId := userId, itemId := itemId, quantity := some quantity,
    storeId := storeId, updatedAt := some clk }

/-- Full characterization of the success path of `addItemToCart`: validated
input, item found with a truthy storefront, no storefront conflict, no
cart-table fault. -/
theorem addItemToCart_ok
    (s : St) (userId itemId : String) (quantity : Int) (item : ProductRec)
    (hf : s.cartFault = none)
    (hi : itemId ≠ "") (hq : ¬ quantity < 1)
    (hfi : findItem s.itemsTable itemId = some item)
    (hsf : strTruthy (jsOr item.storeId item.storefrontId) = true)
    (hnc : (strTruthy (fetchedCartOf s.cartTable userId s.clock).storeId
        && ((fetchedCartOf s.cartTable userId s.clock).storeId !=
            jsOr item.storeId item.storefrontId)
        && decide (0 < (fetchedCartOf s.cartTable userId s.clock).items.length)) = false) :
    addItemToCart userId itemId quantity s =
      (Except.ok (enrichedOf s.itemsTable (fetchedCartOf
          (putRow s.cartTable
            (addedRow userId itemId (jsOr item.storeId item.storefrontId) quantity
              (s.clock + 1)))
          userId (s.clock + 2))),
       (enrichCart
          (fetchedCartOf
            (putRow s.cartTable
              (addedRow userId itemId (jsOr item.storeId item.storefrontId) quantity
                (s.clock + 1)))
            userId (s.clock + 2))
          (writeCartToCache
            (fetchedCartOf
              (putRow s.cartTable
                (addedRow userId itemId (jsOr item.storeId item.storefrontId) quantity
                  (s.clock + 1)))
              userId (s.clock + 2))
            { s with
              cartTable := putRow s.cartTable
                (addedRow userId itemId (jsOr item.storeId item.storefrontId) quantity
                  (s.clock + 1)),
              clock := s.clock + 3,
              trace := s.trace ++
                [Ev.getItem itemId, Ev.qryCart userId,
                 Ev.putCart (addedRow userId itemId
                   (jsOr item.storeId item.storefrontId) quantity (s.clock + 1)),
                 Ev.qryCart userId] })).2) := by
  simp [addItemToCart, hi, hq, hfi, hsf, fetchCartFromDynamo, hf, hnc, putCartRow,
    addedRow]
  cases hp : s.cachePresent <;> cases hqf : s.cacheFailing <;>
    simp [enrichCart, writeCartToCache, hp, hqf, Nat.add_assoc]

/-- If the durable table holds a row of the user, and any cached snapshot
also shows that row's view, then `getCartForUser` succeeds with a line
carrying the row's id and quantity. -/
theorem getCart_contains_of_table_row (s : St) (userId : String) (row : CartRow)
    (hf : s.cartFault = none)
    (hmem : row ∈ s.cartTable) (hu : row.userId = userId)
    (hcache : ∀ snap, (readCartFromCache userId s).1 = some snap →
      rowToView row ∈ snap.items) :
    ∃ ec, (getCartForUser userId s).1 = Except.ok ec ∧
      ∃ e ∈ ec.items, e.itemId = row.itemId ∧ e.quantity = row.quantity.getD 1 := by
  rw [getCartForUser_result userId s hf]
  refine ⟨_, rfl, ?_⟩
  cases hr : (readCartFromCache userId s).1 with
  | some snap =>
      obtain ⟨e, he, h1, h2⟩ :=
        enrichedOf_mem_line s.itemsTable snap (rowToView row) (hcache snap hr)
      exact ⟨e, by simpa [hr] using he, by simpa [rowToView] using h1,
        by simpa [rowToView] using h2⟩
  | none =>
      obtain ⟨e, he, h1, h2⟩ :=
        enrichedOf_mem_line s.itemsTable (fetchedCartOf s.cartTable userId s.clock)
          (rowToView row) (fetchedCartOf_mem s.cartTable userId s.clock row hmem hu)
      exact ⟨e, by simpa [hr] using he, by simpa [rowToView] using h1,
        by simpa [rowToView] using h2⟩

/-! ### Projection lemmas for the stateful helpers -/

theorem writeCartToCache_cartTable (cart : Cart) (st : St) :
    (writeCartToCache cart st).cartTable = st.cartTable := by
  unfold writeCartToCache; split <;> (try dsimp only) <;> (try split) <;> rfl

theorem writeCartToCache_itemsTable (cart : Cart) (st : St) :
    (writeCartToCache cart st).itemsTable = st.itemsTable := by
  unfold writeCartToCache; split <;> (try dsimp only) <;> (try split) <;> rfl

theorem writeCartToCache_cartFault (cart : Cart) (st : St) :
    (writeCartToCache cart st).cartFault = st.cartFault := by
  unfold writeCartToCache; split <;> (try dsimp only) <;> (try split) <;> rfl

theorem writeCartToCache_clock (cart : Cart) (st : St) :
    (writeCartToCache cart st).clock = st.clock := by
  unfold writeCartToCache; split <;> (try dsimp only) <;> (try split) <;> rfl

theorem writeCartToCache_cachePresent (cart : Cart) (st : St) :
    (writeCartToCache cart st).cachePresent = st.cachePresent := by
  unfold writeCartToCache; split <;> (try dsimp only) <;> (try split) <;> rfl

theorem writeCartToCache_cacheFailing (cart : Cart) (st : St) :
    (writeCartToCache cart st).cacheFailing = st.cacheFailing := by
  unfold writeCartToCache; split <;> (try dsimp only) <;> (try split) <;> rfl

theorem writeCartToCache_cache (cart : Cart) (st : St) :
    (writeCartToCache cart st).cache =
      if st.cachePresent && !st.cacheFailing then
        assocSet st.cache (cacheKey cart.userId) cart
      else st.cache := by
  unfold writeCartToCache
  cases hp : st.cachePresent <;> cases hqf : st.cacheFailing <;> simp [hp, hqf]

theorem clearCartCache_cache (userId : String) (st : St) :
    (clearCartCache userId st).cache =
      if st.cachePresent && !st.cacheFailing then assocDel st.cache (cacheKey userId)
      else st.cache := by
  unfold clearCartCache
  cases hp : st.cachePresent <;> cases hqf : st.cacheFailing <;> simp [hp, hqf]

theorem clearCartCache_cartTable (userId : String) (st : St) :
    (clearCartCache userId st).cartTable = st.cartTable := by
  unfold clearCartCache; split <;> (try dsimp only) <;> (try split) <;> rfl

theorem clearCartCache_itemsTable (userId : String) (st : St) :
    (clearCartCache userId st).itemsTable = st.itemsTable := by
  unfold clearCartCache; split <;> (try dsimp only) <;> (try split) <;> rfl

theorem clearCartCache_cartFault (userId : String) (st : St) :
    (clearCartCache userId st).cartFault = st.cartFault := by
  unfold clearCartCache; split <;> (try dsimp only) <;> (try split) <;> rfl

theorem clearCartCache_clock (userId : String) (st : St) :
    (clearCartCache userId st).clock = st.clock := by
  unfold clearCartCache; split <;> (try dsimp only) <;> (try split) <;> rfl

theorem clearCartCache_cachePresent (userId : String) (st : St) :
    (clearCartCache userId st).cachePresent = st.cachePresent := by
  unfold clearCartCache; split <;> (try dsimp only) <;> (try split) <;> rfl

theorem clearCartCache_cacheFailing (userId : String) (st : St) :
    (clearCartCache userId st).cacheFailing = st.cacheFailing := by
  unfold clearCartCache; split <;> (try dsimp only) <;> (try split) <;> rfl

theorem enrichCart_fst (cart : Cart) (st : St) :
    (enrichCart cart st).1 = enrichedOf st.itemsTable cart := rfl

theorem enrichCart_snd_cartTable (cart : Cart) (st : St) :
    (enrichCart cart st).2.cartTable = st.cartTable := by
  unfold enrichCart; dsimp only; split <;> rfl

theorem enrichCart_snd_itemsTable (cart : Cart) (st : St) :
    (enrichCart cart st).2.itemsTable = st.itemsTable := by
  unfold enrichCart; dsimp only; split <;> rfl

theorem enrichCart_snd_cartFault (cart : Cart) (st : St) :
    (enrichCart cart st).2.cartFault = st.cartFault := by
  unfold enrichCart; dsimp only; split <;> rfl

theorem enrichCart_snd_clock (cart : Cart) (st : St) :
    (enrichCart cart st).2.clock = st.clock := by
  unfold enrichCart; dsimp only; split <;> rfl

theorem enrichCart_snd_cache (cart : Cart) (st : St) :
    (enrichCart cart st).2.cache = st.cache := by
  unfold enrichCart; dsimp only; split <;> rfl

theorem enrichCart_snd_cachePresent (cart : Cart) (st : St) :
    (enrichCart cart st).2.cachePresent = st.cachePresent := by
  unfold enrichCart; dsimp only; split <;> rfl

theorem enrichCart_snd_cacheFailing (cart : Cart) (st : St) :
    (enrichCart cart st).2.cacheFailing = st.cacheFailing := by
  unfold enrichCart; dsimp only; split <;> rfl

/-- The cache read outcome, expressed through the state's fields. -/
theorem readCartFromCache_fst (userId : String) (st : St) :
    (readCartFromCache userId st).1 =
      if st.cachePresent && !st.cacheFailing then assocGet st.cache (cacheKey userId)
      else none := by
  unfold readCartFromCache
  cases hp : st.cachePresent <;> cases hqf : st.cacheFailing <;> simp [hp, hqf]

/-! ### Claim C2 -/

/-- C2: for valid input whose item exists with a non-conflicting storefront,
`addItemToCart` succeeds and both its response and a subsequent
`getCartForUser` contain a line with that item id and exactly that
quantity. -/
theorem addItem_then_getCart_contains_line
    (s : St) (userId itemId : String) (quantity : Int) (item : ProductRec)
    (hf : s.cartFault = none)
    (hi : itemId ≠ "") (hq : 1 ≤ quantity)
    (hfi : findItem s.itemsTable itemId = some item)
    (hsf : strTruthy (jsOr item.storeId item.storefrontId) = true)
    (hnc : (strTruthy (fetchedCartOf s.cartTable userId s.clock).storeId
        && ((fetchedCartOf s.cartTable userId s.clock).storeId !=
            jsOr item.storeId item.storefrontId)
        && decide (0 < (fetchedCartOf s.cartTable userId s.clock).items.length)) = false) :
    (∃ ec, (addItemToCart userId itemId quantity s).1 = Except.ok ec ∧
      ∃ e ∈ ec.items, e.itemId = itemId ∧ e.quantity = quantity) ∧
    (∃ ec2, (getCartForUser userId (addItemToCart userId itemId quantity s).2).1 =
        Except.ok ec2 ∧
      ∃ e ∈ ec2.items, e.itemId = itemId ∧ e.quantity = quantity) := by
  have hq' : ¬ quantity < 1 := by omega
  have hall := addItemToCart_ok s userId itemId quantity item hf hi hq' hfi hsf hnc
  rw [hall]
  set B := addedRow userId itemId (jsOr item.storeId item.storefrontId) quantity
    (s.clock + 1) with hB
  set F := fetchedCartOf (putRow s.cartTable B) userId (s.clock + 2) with hF
  set S5 : St := { s with
    cartTable := putRow s.cartTable B,
    clock := s.clock + 3,
    trace := s.trace ++
      [Ev.getItem itemId, Ev.qryCart userId, Ev.putCart B, Ev.qryCart userId] } with hS5
  set Sf := (enrichCart F (writeCartToCache F S5)).2 with hS
  have hu : B.userId = userId := by rw [hB]; rfl
  have hFu : F.userId = userId := by rw [hF]; rfl
  have hrowmem : rowToView B ∈ F.items := by
    rw [hF]
    exact fetchedCartOf_mem _ userId _ B (putRow_mem _ _) hu
  constructor
  · refine ⟨_, rfl, ?_⟩
    obtain ⟨e, he, h1, h2⟩ := enrichedOf_mem_line s.itemsTable F (rowToView B) hrowmem
    exact ⟨e, he, by simpa [rowToView, hB, addedRow] using h1,
      by simpa [rowToView, hB, addedRow] using h2⟩
  · have hfS : Sf.cartFault = none := by
      rw [hS, enrichCart_snd_cartFault, writeCartToCache_cartFault, hS5]
      exact hf
    have hmemS : B ∈ Sf.cartTable := by
      rw [hS, enrichCart_snd_cartTable, writeCartToCache_cartTable, hS5]
      exact putRow_mem _ _
    have hcache : ∀ snap, (readCartFromCache userId Sf).1 = some snap →
        rowToView B ∈ snap.items := by
      intro snap hsnap
      rw [hS, readCartFromCache_fst, enrichCart_snd_cachePresent,
        writeCartToCache_cachePresent, enrichCart_snd_cacheFailing,
        writeCartToCache_cacheFailing, enrichCart_snd_cache,
        writeCartToCache_cache] at hsnap
      split at hsnap
      · next hcond =>
          simp only [hcond, if_true] at hsnap
          rw [hFu, assocGet_assocSet] at hsnap
          obtain rfl : F = snap := by injection hsnap
          exact hrowmem
      · exact absurd hsnap (by simp)
    obtain ⟨ec2, hres, e, he, h1, h2⟩ :=
      getCart_contains_of_table_row Sf userId B hfS hmemS hu hcache
    refine ⟨ec2, hres, e, he, ?_, ?_⟩
    · rw [h1, hB]; rfl
    · rw [h2, hB]; rfl

/-- Witness for C2: adding item `y` (storefront `B`) with quantity 2 to an
empty cart, then reading the cart back. -/
theorem addItem_then_getCart_witness :
    (∃ ec, (addItemToCart "u" "y" 2
        (mkSt [] [{ id := "y", storeId := some "B" }] true false [] none)).1 =
      Except.ok ec ∧ ∃ e ∈ ec.items, e.itemId = "y" ∧ e.quantity = 2) ∧
    (∃ ec2, (getCartForUser "u" (addItemToCart "u" "y" 2
        (mkSt [] [{ id := "y", storeId := some "B" }] true false [] none)).2).1 =
      Except.ok ec2 ∧ ∃ e ∈ ec2.items, e.itemId = "y" ∧ e.quantity = 2) :=
  addItem_then_getCart_contains_line _ "u" "y" 2 { id := "y", storeId := some "B" }
    rfl (by decide) (by decide) (by decide) (by decide) (by decide)

/-! ### Claim C4 -/

/-- Full characterization of `removeItemFromCart` without a cart-table
fault. -/
theorem removeItemFromCart_ok (s : St) (userId itemId : String)
    (hf : s.cartFault = none) (hi : itemId ≠ "") :
    removeItemFromCart userId itemId s =
      (Except.ok (enrichedOf s.itemsTable
        (fetchedCartOf (deleteRow s.cartTable userId itemId) userId s.clock)),
       (enrichCart
          (fetchedCartOf (deleteRow s.cartTable userId itemId) userId s.clock)
          (writeCartToCache
            (fetchedCartOf (deleteRow s.cartTable userId itemId) userId s.clock)
            { s with
              cartTable := deleteRow s.cartTable userId itemId,
              clock := s.clock + 1,
              trace := s.trace ++ [Ev.delCart userId itemId, Ev.qryCart userId] })).2) := by
  simp [removeItemFromCart, hi, deleteCartRow, fetchCartFromDynamo, hf]
  cases hp : s.cachePresent <;> cases hqf : s.cacheFailing <;>
    simp [enrichCart, writeCartToCache, hp, hqf, Nat.add_assoc]

/-- The user's rows after a keyed delete are the previous rows without the
deleted item id. -/
theorem queryRows_deleteRow (tbl : List CartRow) (u i : String) :
    queryRows (deleteRow tbl u i) u =
      (queryRows tbl u).filter (fun r => !(r.itemId = i)) := by
  induction tbl with
  | nil => rfl
  | cons r rs ih =>
      by_cases hu : r.userId = u <;> by_cases hii : r.itemId = i <;>
        simp [queryRows, deleteRow, hu, hii] at ih ⊢ <;>
        simp [ih]

/-- Every line of a cart fetched after a keyed delete avoids the deleted
item id. -/
theorem fetched_after_delete_no_line (tbl : List CartRow) (u i : String) (clk : Nat) :
    ∀ l ∈ (fetchedCartOf (deleteRow tbl u i) u clk).items, l.itemId ≠ i := by
  intro l hl
  simp only [fetchedCartOf, List.mem_map, queryRows_deleteRow] at hl
  rcases hl with ⟨r, hr, rfl⟩
  have := (List.mem_filter.mp hr).2
  simp only [rowToView]
  simpa using this

/-- Deleting the id shared by every line of the user leaves no rows. -/
theorem queryRows_deleteRow_all (tbl : List CartRow) (u i : String)
    (hall : ∀ r ∈ queryRows tbl u, r.itemId = i) :
    queryRows (deleteRow tbl u i) u = [] := by
  rw [queryRows_deleteRow]
  simp only [List.filter_eq_nil]
  intro r hr
  simp [hall r hr]

/-- Enriching a cart with no lines and no storefront yields `storeId =
null`. -/
theorem enrichedOf_empty_storeId (tbl : List ProductRec) (cart : Cart)
    (hitems : cart.items = []) (hstore : cart.storeId = none) :
    (enrichedOf tbl cart).storeId = none ∧ (enrichedOf tbl cart).items = [] := by
  simp [enrichedOf, hitems, hstore, jsOr, strTruthy]

/-- A fetched cart over no rows is empty with `storeId = null`. -/
theorem fetchedCartOf_empty (tbl : List CartRow) (u : String) (clk : Nat)
    (h : queryRows tbl u = []) :
    (fetchedCartOf tbl u clk).items = [] ∧ (fetchedCartOf tbl u clk).storeId = none := by
  simp [fetchedCartOf, h, cartStoreOf, jsOr, strTruthy]

/-- `getCartForUser` never shows a line that is neither in the user's
durable rows nor in the cached snapshot. -/
theorem getCart_without_item (s : St) (userId itemId : String)
    (hf : s.cartFault = none)
    (htbl : ∀ r ∈ queryRows s.cartTable userId, r.itemId ≠ itemId)
    (hcache : ∀ snap, (readCartFromCache userId s).1 = some snap →
      ∀ l ∈ snap.items, l.itemId ≠ itemId) :
    ∃ ec, (getCartForUser userId s).1 = Except.ok ec ∧
      ∀ e ∈ ec.items, e.itemId ≠ itemId := by
  rw [getCartForUser_result userId s hf]
  refine ⟨_, rfl, ?_⟩
  intro e he
  cases hr : (readCartFromCache userId s).1 with
  | some snap =>
      rw [hr] at he
      obtain ⟨line, hline, heq⟩ := enrichedOf_mem_inv _ _ e he
      rw [heq]
      exact hcache snap hr line hline
  | none =>
      rw [hr] at he
      obtain ⟨line, hline, heq⟩ := enrichedOf_mem_inv _ _ e he
      rw [heq]
      simp only [fetchedCartOf, List.mem_map] at hline
      rcases hline with ⟨r, hrq, rfl⟩
      simpa [rowToView] using htbl r hrq

/-- `getCartForUser` on a user with no durable rows and no (or an empty)
snapshot returns an empty cart with `storeId = null`. -/
theorem getCart_empty_storeId_none (s : St) (userId : String)
    (hf : s.cartFault = none)
    (htbl : queryRows s.cartTable userId = [])
    (hcache : ∀ snap, (readCartFromCache userId s).1 = some snap →
      snap.storeId = none ∧ snap.items = []) :
    ∃ ec, (getCartForUser userId s).1 = Except.ok ec ∧
      ec.storeId = none ∧ ec.items = [] := by
  rw [getCartForUser_result userId s hf]
  refine ⟨_, rfl, ?_⟩
  cases hr : (readCartFromCache userId s).1 with
  | some snap =>
      obtain ⟨h1, h2⟩ := hcache snap hr
      exact enrichedOf_empty_storeId _ _ h2 h1
  | none =>
      obtain ⟨h1, h2⟩ := fetchedCartOf_empty s.cartTable userId s.clock htbl
      exact enrichedOf_empty_storeId _ _ h1 h2

/-- After a write-through of snapshot `F`, the only snapshot a cache read
can return for that user is `F` itself. -/
theorem readCache_after_write (F : Cart) (S5 : St) (userId : String)
    (hFu : F.userId = userId) (snap : Cart)
    (hsnap : (readCartFromCache userId ((enrichCart F (writeCartToCache F S5)).2)).1 =
      some snap) :
    snap = F := by
  rw [readCartFromCache_fst, enrichCart_snd_cachePresent, writeCartToCache_cachePresent,
    enrichCart_snd_cacheFailing, writeCartToCache_cacheFailing, enrichCart_snd_cache,
    writeCartToCache_cache] at hsnap
  split at hsnap
  · next hcond =>
      try simp only [hcond, if_true] at hsnap
      rw [hFu, assocGet_assocSet] at hsnap
      injection hsnap with h
      exact h.symm
  · exact absurd hsnap (by simp)

/-- C4: `updateItemQuantity` with a quantity below 1 removes the item: the
returned cart and any subsequent `getCartForUser` contain no line with that
id, and when the removed item was the last line both return an empty cart
with `storeId = null`. -/
theorem updateItemQuantity_zero_removes
    (s : St) (userId itemId : String) (quantity : Int)
    (hf : s.cartFault = none) (hi : itemId ≠ "") (hq : quantity < 1) :
    (∃ ec, (updateItemQuantity userId itemId quantity s).1 = Except.ok ec ∧
      ∀ e ∈ ec.items, e.itemId ≠ itemId) ∧
    (∃ ec2, (getCartForUser userId (updateItemQuantity userId itemId quantity s).2).1 =
        Except.ok ec2 ∧ ∀ e ∈ ec2.items, e.itemId ≠ itemId) ∧
    ((∀ r ∈ queryRows s.cartTable userId, r.itemId = itemId) →
      (∃ ec, (updateItemQuantity userId itemId quantity s).1 = Except.ok ec ∧
        ec.storeId = none ∧ ec.items = []) ∧
      (∃ ec2, (getCartForUser userId (updateItemQuantity userId itemId quantity s).2).1 =
          Except.ok ec2 ∧ ec2.storeId = none ∧ ec2.items = [])) := by
  have hupd : updateItemQuantity userId itemId quantity s =
      removeItemFromCart userId itemId s := by
    simp [updateItemQuantity, hq]
  rw [hupd, removeItemFromCart_ok s userId itemId hf hi]
  set D := deleteRow s.cartTable userId itemId with hD
  set F := fetchedCartOf D userId s.clock with hF
  set S5 : St := { s with
    cartTable := D,
    clock := s.clock + 1,
    trace := s.trace ++ [Ev.delCart userId itemId, Ev.qryCart userId] } with hS5
  set Sf := (enrichCart F (writeCartToCache F S5)).2 with hS
  have hFu : F.userId = userId := by rw [hF]; rfl
  have hFno : ∀ l ∈ F.items, l.itemId ≠ itemId := by
    rw [hF, hD]
    exact fetched_after_delete_no_line s.cartTable userId itemId s.clock
  have hfS : Sf.cartFault = none := by
    rw [hS, enrichCart_snd_cartFault, writeCartToCache_cartFault, hS5]
    exact hf
  have htblD : ∀ r ∈ queryRows D userId, r.itemId ≠ itemId := by
    rw [hD, queryRows_deleteRow]
    intro r hr
    simpa using (List.mem_filter.mp hr).2
  have htblS : ∀ r ∈ queryRows Sf.cartTable userId, r.itemId ≠ itemId := by
    rw [hS, enrichCart_snd_cartTable, writeCartToCache_cartTable, hS5]
    exact htblD
  have hcacheS : ∀ snap, (readCartFromCache userId Sf).1 = some snap →
      ∀ l ∈ snap.items, l.itemId ≠ itemId := by
    intro snap hsnap
    obtain rfl : snap = F := readCache_after_write F S5 userId hFu snap (by rw [← hS]; exact hsnap)
    exact hFno
  refine ⟨?_, ?_, ?_⟩
  · refine ⟨_, rfl, ?_⟩
    intro e he
    obtain ⟨line, hline, heq⟩ := enrichedOf_mem_inv _ _ e he
    rw [heq]
    exact hFno line hline
  · exact getCart_without_item Sf userId itemId hfS htblS hcacheS
  · intro hall0
    have hDempty : queryRows D userId = [] := by
      rw [hD]
      exact queryRows_deleteRow_all _ _ _ hall0
    have hFempty := fetchedCartOf_empty D userId s.clock hDempty
    constructor
    · refine ⟨_, rfl, ?_⟩
      exact enrichedOf_empty_storeId s.itemsTable F (by rw [hF]; exact hFempty.1)
        (by rw [hF]; exact hFempty.2)
    · apply getCart_empty_storeId_none Sf userId hfS
      · rw [hS, enrichCart_snd_cartTable, writeCartToCache_cartTable, hS5]
        exact hDempty
      · intro snap hsnap
        obtain rfl : snap = F :=
          readCache_after_write F S5 userId hFu snap (by rw [← hS]; exact hsnap)
        exact ⟨by rw [hF]; exact hFempty.2, by rw [hF]; exact hFempty.1⟩

/-- Witness for C4: updating the only cart line to quantity 0. -/
theorem updateItemQuantity_zero_witness :
    (∃ ec, (updateItemQuantity "u" "x" 0
        (mkSt [{ userId := "u", itemId := "x", storeId := some "A" }] [] true false []
          none)).1 = Except.ok ec ∧ ∀ e ∈ ec.items, e.itemId ≠ "x") ∧
    (∃ ec2, (getCartForUser "u" (updateItemQuantity "u" "x" 0
        (mkSt [{ userId := "u", itemId := "x", storeId := some "A" }] [] true false []
          none)).2).1 = Except.ok ec2 ∧ ∀ e ∈ ec2.items, e.itemId ≠ "x") ∧
    ((∀ r ∈ queryRows
        (mkSt [{ userId := "u", itemId := "x", storeId := some "A" }] [] true false []
          none).cartTable "u", r.itemId = "x") →
      (∃ ec, (updateItemQuantity "u" "x" 0
          (mkSt [{ userId := "u", itemId := "x", storeId := some "A" }] [] true false []
            none)).1 = Except.ok ec ∧ ec.storeId = none ∧ ec.items = []) ∧
      (∃ ec2, (getCartForUser "u" (updateItemQuantity "u" "x" 0
          (mkSt [{ userId := "u", itemId := "x", storeId := some "A" }] [] true false []
            none)).2).1 = Except.ok ec2 ∧ ec2.storeId = none ∧ ec2.items = [])) :=
  updateItemQuantity_zero_removes _ "u" "x" 0 rfl (by decide) (by decide)

/-! ### Claim C5 -/

/-- The chunks of 25 reassemble to the original list. -/
theorem chunks25_join (l : List CartItemView) : (chunks25 l).join = l := by
  induction l using chunks25.induct with
  | case1 => simp [chunks25]
  | case2 x xs ih =>
      rw [chunks25]
      simp only [List.join_cons, ih, List.take_append_drop]

/-- Every chunk holds at most 25 elements. -/
theorem chunks25_le (l : List CartItemView) (c : List CartItemView)
    (hc : c ∈ chunks25 l) : c.length ≤ 25 := by
  induction l using chunks25.induct with
  | case1 => simp [chunks25] at hc
  | case2 x xs ih =>
      rw [chunks25] at hc
      rcases List.mem_cons.mp hc with rfl | hc
      · simpa using List.length_take_le 25 (x :: xs)
      · exact ih hc

/-- The batch-delete request key lists recorded along a trace. -/
def batchDelsOf (t : List Ev) : List (List String) :=
  t.filterMap (fun e => match e with | Ev.batchDelCart _ ids => some ids | _ => none)

theorem batchDelsOf_append (t u : List Ev) :
    batchDelsOf (t ++ u) = batchDelsOf t ++ batchDelsOf u := by
  simp [batchDelsOf]

/-- The chunk loop records exactly one key list per chunk. -/
theorem batchDelsOf_map_batchDel (u : String) (chunks : List (List CartItemView)) :
    batchDelsOf (chunks.map (fun c => Ev.batchDelCart u (c.map (fun it => it.itemId)))) =
      chunks.map (fun c => c.map (fun it => it.itemId)) := by
  induction chunks with
  | nil => rfl
  | cons c cs ih => simpa [batchDelsOf] using ih

/-- Batched deletes over appended key lists compose. -/
theorem deleteIds_append (tbl : List CartRow) (u : String) (a b : List String) :
    deleteIds tbl u (a ++ b) = deleteIds (deleteIds tbl u a) u b := by
  simp [deleteIds, List.foldl_append]

/-- Folding chunked deletes equals one delete over the joined keys. -/
theorem foldl_chunks_deleteIds (tbl : List CartRow) (u : String)
    (chunks : List (List String)) :
    chunks.foldl (fun t c => deleteIds t u c) tbl = deleteIds tbl u chunks.join := by
  induction chunks generalizing tbl with
  | nil => simp [deleteIds]
  | cons c cs ih => simp [List.join_cons, deleteIds_append, ih]

/-- The user's rows after a batched delete are those whose item id was not
among the deleted keys. -/
theorem queryRows_deleteIds (tbl : List CartRow) (u : String) (ids : List String) :
    queryRows (deleteIds tbl u ids) u =
      (queryRows tbl u).filter (fun r => !(ids.contains r.itemId)) := by
  induction ids generalizing tbl with
  | nil => simp [deleteIds, queryRows]
  | cons i is ih =>
      have h1 : deleteIds tbl u (i :: is) = deleteIds (deleteRow tbl u i) u is := by
        simp [deleteIds]
      rw [h1, ih, queryRows_deleteRow, List.filter_filter]
      apply List.filter_congr
      intro r hr
      by_cases hri : r.itemId = i <;> simp [hri]

/-- Full characterization of `clearCartForUser` without a cart-table fault:
one query, one batch-delete per chunk of 25 (none for an empty cart), a
cache invalidation, the write-through of an empty snapshot, and an empty
enriched response. -/
theorem clearCartForUser_ok (s : St) (userId : String) (hf : s.cartFault = none) :
    clearCartForUser userId s =
      (Except.ok (enrichedOf s.itemsTable
        { userId := userId, storeId := none, items := [], updatedAt := s.clock + 1 }),
       (enrichCart
          { userId := userId, storeId := none, items := [], updatedAt := s.clock + 1 }
          (writeCartToCache
            { userId := userId, storeId := none, items := [], updatedAt := s.clock + 1 }
            (clearCartCache userId
              { s with
                cartTable :=
                  (chunks25 (fetchedCartOf s.cartTable userId s.clock).items).foldl
                    (fun t c => deleteIds t userId (c.map (fun it => it.itemId)))
                    s.cartTable,
                clock := s.clock + 2,
                trace := (s.trace ++ [Ev.qryCart userId]) ++
                  (chunks25 (fetchedCartOf s.cartTable userId s.clock).items).map
                    (fun c => Ev.batchDelCart userId
                      (c.map (fun it => it.itemId))) }))).2) := by
  have hdel := deleteChunks_ok userId
    (chunks25 (fetchedCartOf s.cartTable userId s.clock).items)
    { s with clock := s.clock + 1, trace := s.trace ++ [Ev.qryCart userId] }
    (by simp [hf])
  simp only [hf] at hdel
  simp [deleteIds] at hdel
  by_cases hlen : 0 < (fetchedCartOf s.cartTable userId s.clock).items.length
  · simp [clearCartForUser, fetchCartFromDynamo, hf, hlen, hdel, deleteIds,
      Nat.add_assoc, enrichCart_fst, writeCartToCache_itemsTable,
      clearCartCache_itemsTable]
  · have hempty : (fetchedCartOf s.cartTable userId s.clock).items = [] :=
      List.length_eq_zero.mp (by omega)
    have hch : chunks25 (fetchedCartOf s.cartTable userId s.clock).items = [] := by
      rw [hempty]
      simp [chunks25]
    simp [clearCartForUser, fetchCartFromDynamo, hf, hlen, hch, Nat.add_assoc,
      enrichCart_fst, writeCartToCache_itemsTable, clearCartCache_itemsTable]

/-- Enriching an empty cart issues no catalog call and keeps the state. -/
theorem enrichCart_snd_empty (cart : Cart) (st : St) (h : cart.items = []) :
    (enrichCart cart st).2 = st := by
  simp [enrichCart, h]

theorem writeCartToCache_trace (cart : Cart) (st : St) :
    (writeCartToCache cart st).trace =
      st.trace ++
        (if st.cachePresent then [Ev.cSet (cacheKey cart.userId) cart] else []) := by
  unfold writeCartToCache
  cases hp : st.cachePresent <;> cases hqf : st.cacheFailing <;> simp [hp, hqf]

theorem clearCartCache_trace (userId : String) (st : St) :
    (clearCartCache userId st).trace =
      st.trace ++ (if st.cachePresent then [Ev.cDel (cacheKey userId)] else []) := by
  unfold clearCartCache
  cases hp : st.cachePresent <;> cases hqf : st.cacheFailing <;> simp [hp, hqf]

/-- Joining per-chunk id lists equals the ids of the joined chunks. -/
theorem map_join_ids (chunks : List (List CartItemView)) (f : CartItemView → String) :
    ((chunks.map (fun c => c.map f)).join) = (chunks.join).map f := by
  induction chunks with
  | nil => rfl
  | cons c cs ih =>
      show List.map f c ++ (List.map (fun c => List.map f c) cs).join =
        List.map f (c ++ cs.join)
      rw [List.map_append, ih]

/-- C5: `clearCartForUser` deletes the user's rows with batch-delete
requests of at most 25 keys whose key lists join to exactly the cart's
lines, leaves no durable row for the user, and both its response and a
subsequent `getCartForUser` are the empty cart with `storeId = null`. -/
theorem clearCart_batches_and_empties
    (s : St) (userId : String) (hf : s.cartFault = none) (htr : s.trace = []) :
    (∀ u ids, Ev.batchDelCart u ids ∈ (clearCartForUser userId s).2.trace →
      ids.length ≤ 25) ∧
    (batchDelsOf ((clearCartForUser userId s).2.trace)).join =
      (fetchedCartOf s.cartTable userId s.clock).items.map (fun it => it.itemId) ∧
    queryRows ((clearCartForUser userId s).2.cartTable) userId = [] ∧
    (∃ ec, (clearCartForUser userId s).1 = Except.ok ec ∧
      ec.items = [] ∧ ec.storeId = none) ∧
    (∃ ec2, (getCartForUser userId ((clearCartForUser userId s).2)).1 = Except.ok ec2 ∧
      ec2.items = [] ∧ ec2.storeId = none) := by
  rw [clearCartForUser_ok s userId hf]
  set E : Cart :=
    { userId := userId, storeId := none, items := [], updatedAt := s.clock + 1 } with hE
  set chunksAll := chunks25 (fetchedCartOf s.cartTable userId s.clock).items with hCh
  set T' := chunksAll.foldl
    (fun t c => deleteIds t userId (c.map (fun it => it.itemId))) s.cartTable with hT
  set S3 : St := { s with
    cartTable := T',
    clock := s.clock + 2,
    trace := (s.trace ++ [Ev.qryCart userId]) ++
      chunksAll.map (fun c => Ev.batchDelCart userId (c.map (fun it => it.itemId))) }
    with hS3
  set Sf := (enrichCart E (writeCartToCache E (clearCartCache userId S3))).2 with hS
  have hEitems : E.items = [] := by rw [hE]
  have hEstore : E.storeId = none := by rw [hE]
  have hEu : E.userId = userId := by rw [hE]
  have hSf : Sf = writeCartToCache E (clearCartCache userId S3) := by
    rw [hS]
    exact enrichCart_snd_empty E _ hEitems
  have hS3trace : S3.trace = Ev.qryCart userId ::
      chunksAll.map (fun c => Ev.batchDelCart userId (c.map (fun it => it.itemId))) := by
    rw [hS3]
    simp [htr]
  have hSfTrace : Sf.trace = (S3.trace ++
      (if S3.cachePresent then [Ev.cDel (cacheKey userId)] else [])) ++
      (if S3.cachePresent then [Ev.cSet (cacheKey userId) E] else []) := by
    rw [hSf, writeCartToCache_trace, clearCartCache_trace, hEu,
      clearCartCache_cachePresent]
  have hqT : queryRows T' userId = [] := by
    rw [hT, ← List.foldl_map (fun c => c.map (fun it => it.itemId))
      (fun t c => deleteIds t userId c) chunksAll s.cartTable]
    rw [foldl_chunks_deleteIds, queryRows_deleteIds]
    apply List.filter_eq_nil.mpr
    intro r hr
    have hmemid : r.itemId ∈ ((chunksAll.map
        (fun c => c.map (fun it => it.itemId))).join) := by
      rw [map_join_ids, hCh, chunks25_join]
      simp only [fetchedCartOf]
      exact List.mem_map_of_mem (fun it => it.itemId)
        (List.mem_map_of_mem rowToView hr)
    simp [hmemid]
  refine ⟨?_, ?_, ?_, ?_, ?_⟩
  · intro u ids hmem
    rw [hSfTrace, hS3trace] at hmem
    rcases List.mem_append.mp hmem with hmem | hmem
    · rcases List.mem_append.mp hmem with hmem | hmem
      · rcases List.mem_cons.mp hmem with h | hmem
        · simp at h
        · rcases List.mem_map.mp hmem with ⟨c, hc, heq⟩
          cases heq
          rw [List.length_map]
          rw [hCh] at hc
          exact chunks25_le _ c hc
      · split at hmem <;> simp at hmem
    · split at hmem <;> simp at hmem
  · rw [hSfTrace, batchDelsOf_append, batchDelsOf_append, hS3trace]
    have h1 : batchDelsOf (if S3.cachePresent then [Ev.cDel (cacheKey userId)]
        else []) = [] := by split <;> rfl
    have h2 : batchDelsOf (if S3.cachePresent then [Ev.cSet (cacheKey userId) E]
        else []) = [] := by split <;> rfl
    have h3 : batchDelsOf (Ev.qryCart userId ::
        chunksAll.map (fun c => Ev.batchDelCart userId (c.map (fun it => it.itemId)))) =
        chunksAll.map (fun c => c.map (fun it => it.itemId)) := by
      have := batchDelsOf_map_batchDel userId chunksAll
      simpa [batchDelsOf] using this
    rw [h1, h2, h3, List.append_nil, List.append_nil, map_join_ids, hCh, chunks25_join]
  · have hSfTable : Sf.cartTable = T' := by
      rw [hSf, writeCartToCache_cartTable, clearCartCache_cartTable, hS3]
    rw [hSfTable]
    exact hqT
  · refine ⟨_, rfl, ?_⟩
    have h := enrichedOf_empty_storeId s.itemsTable E hEitems hEstore
    exact ⟨h.2, h.1⟩
  · have hfS : Sf.cartFault = none := by
      rw [hSf, writeCartToCache_cartFault, clearCartCache_cartFault, hS3]
      exact hf
    have htblS : queryRows Sf.cartTable userId = [] := by
      rw [hSf, writeCartToCache_cartTable, clearCartCache_cartTable, hS3]
      exact hqT
    obtain ⟨ec2, hres, hstore, hitems⟩ :=
      getCart_empty_storeId_none Sf userId hfS htblS (by
        intro snap hsnap
        obtain rfl : snap = E :=
          readCache_after_write E (clearCartCache userId S3) userId hEu snap
            (by rw [← hS]; exact hsnap)
        exact ⟨hEstore, hEitems⟩)
    exact ⟨ec2, hres, hitems, hstore⟩

/-- A two-line cart table used by the clear-cart witness. -/
def twoRowTable : List CartRow :=
  [{ userId := "u", itemId := "a", storeId := some "S" },
   { userId := "u", itemId := "b", storeId := some "S" }]

/-- Witness for C5 at a two-line cart. -/
theorem clearCart_batches_witness :
    (∀ u ids, Ev.batchDelCart u ids ∈
        (clearCartForUser "u" (mkSt twoRowTable [] true false [] none)).2.trace →
      ids.length ≤ 25) ∧
    (batchDelsOf ((clearCartForUser "u"
        (mkSt twoRowTable [] true false [] none)).2.trace)).join =
      (fetchedCartOf (mkSt twoRowTable [] true false [] none).cartTable "u"
        (mkSt twoRowTable [] true false [] none).clock).items.map
          (fun it => it.itemId) ∧
    queryRows ((clearCartForUser "u"
      (mkSt twoRowTable [] true false [] none)).2.cartTable) "u" = [] ∧
    (∃ ec, (clearCartForUser "u" (mkSt twoRowTable [] true false [] none)).1 =
      Except.ok ec ∧ ec.items = [] ∧ ec.storeId = none) ∧
    (∃ ec2, (getCartForUser "u" ((clearCartForUser "u"
        (mkSt twoRowTable [] true false [] none)).2)).1 = Except.ok ec2 ∧
      ec2.items = [] ∧ ec2.storeId = none) :=
  clearCart_batches_and_empties _ "u" rfl rfl

/-! ### Claim C3 -/

/-- On any cache miss, `getCartForUser` returns the fault (classified by
`throwWithSchemaHint`) or the enrichment of the durable cart. -/
theorem getCartForUser_fst (userId : String) (s : St)
    (hmiss : (readCartFromCache userId s).1 = none) :
    (getCartForUser userId s).1 =
      (match s.cartFault with
       | some e => Except.error (throwWithSchemaHint e)
       | none => Except.ok (enrichedOf s.itemsTable
           (fetchedCartOf s.cartTable userId s.clock))) := by
  cases hf : s.cartFault with
  | none => rw [getCartForUser_result userId s hf, hmiss]
  | some e =>
      cases hp : s.cachePresent <;> cases hq : s.cacheFailing <;>
        simp [getCartForUser, readCartFromCache, fetchCartFromDynamo, hf, hp, hq]
      have : assocGet s.cache (cacheKey userId) = none := by
        simpa [readCartFromCache, hp, hq] using hmiss
      simp [this]

/-- The caller-visible result of each operation depends only on the durable
tables, the fault slot and the clock — never on the cache — provided the
cache read misses on both sides. -/
theorem fst_eq_of_obs (userId itemId : String) (q : Int) (s1 s2 : St)
    (h1 : s1.cartTable = s2.cartTable) (h2 : s1.itemsTable = s2.itemsTable)
    (h3 : s1.cartFault = s2.cartFault) (h4 : s1.clock = s2.clock)
    (hm1 : (readCartFromCache userId s1).1 = none)
    (hm2 : (readCartFromCache userId s2).1 = none) :
    (getCartForUser userId s1).1 = (getCartForUser userId s2).1 ∧
    (addItemToCart userId itemId q s1).1 = (addItemToCart userId itemId q s2).1 ∧
    (updateItemQuantity userId itemId q s1).1 =
      (updateItemQuantity userId itemId q s2).1 ∧
    (removeItemFromCart userId itemId s1).1 = (removeItemFromCart userId itemId s2).1 ∧
    (clearCartForUser userId s1).1 = (clearCartForUser userId s2).1 := by
  have hadd : ∀ (qq : Int), (addItemToCart userId itemId qq s1).1 =
      (addItemToCart userId itemId qq s2).1 := by
    intro qq
    by_cases hi : itemId = ""
    · simp [addItemToCart, hi]
    by_cases hq1 : qq < 1
    · simp [addItemToCart, hi, hq1]
    cases hfi : findItem s1.itemsTable itemId with
    | none =>
        have hfi2 : findItem s2.itemsTable itemId = none := by rw [← h2]; exact hfi
        simp [addItemToCart, hi, hq1, hfi, hfi2]
    | some item =>
        have hfi2 : findItem s2.itemsTable itemId = some item := by rw [← h2]; exact hfi
        cases hsf : strTruthy (jsOr item.storeId item.storefrontId) with
        | false => simp [addItemToCart, hi, hq1, hfi, hfi2, hsf]
        | true =>
            cases hfa : s1.cartFault with
            | some e =>
                have hfa2 : s2.cartFault = some e := by rw [← h3]; exact hfa
                simp [addItemToCart, hi, hq1, hfi, hfi2, hsf, fetchCartFromDynamo,
                  hfa, hfa2]
            | none =>
                have hfa2 : s2.cartFault = none := by rw [← h3]; exact hfa
                by_cases hc : (strTruthy
                    (fetchedCartOf s1.cartTable userId s1.clock).storeId
                    && ((fetchedCartOf s1.cartTable userId s1.clock).storeId !=
                        jsOr item.storeId item.storefrontId)
                    && decide (0 <
                        (fetchedCartOf s1.cartTable userId s1.clock).items.length)) =
                    true
                · have hc2 : (strTruthy
                      (fetchedCartOf s2.cartTable userId s2.clock).storeId
                      && ((fetchedCartOf s2.cartTable userId s2.clock).storeId !=
                          jsOr item.storeId item.storefrontId)
                      && decide (0 <
                          (fetchedCartOf s2.cartTable userId s2.clock).items.length)) =
                      true := by rw [← h1, ← h4]; exact hc
                  simp [addItemToCart, hi, hq1, hfi, hfi2, hsf, fetchCartFromDynamo,
                    hfa, hfa2, hc, hc2]
                · have hcf : (strTruthy
                      (fetchedCartOf s1.cartTable userId s1.clock).storeId
                      && ((fetchedCartOf s1.cartTable userId s1.clock).storeId !=
                          jsOr item.storeId item.storefrontId)
                      && decide (0 <
                          (fetchedCartOf s1.cartTable userId s1.clock).items.length)) =
                      false := by
                    revert hc
                    cases (strTruthy (fetchedCartOf s1.cartTable userId s1.clock).storeId
                      && ((fetchedCartOf s1.cartTable userId s1.clock).storeId !=
                          jsOr item.storeId item.storefrontId)
                      && decide (0 <
                          (fetchedCartOf s1.cartTable userId s1.clock).items.length)) <;>
                      simp
                  have hcf2 : (strTruthy
                      (fetchedCartOf s2.cartTable userId s2.clock).storeId
                      && ((fetchedCartOf s2.cartTable userId s2.clock).storeId !=
                          jsOr item.storeId item.storefrontId)
                      && decide (0 <
                          (fetchedCartOf s2.cartTable userId s2.clock).items.length)) =
                      false := by rw [← h1, ← h4]; exact hcf
                  rw [addItemToCart_ok s1 userId itemId qq item hfa hi hq1 hfi hsf hcf,
                    addItemToCart_ok s2 userId itemId qq item hfa2 hi hq1 hfi2 hsf hcf2]
                  simp [h1, h2, h4]
  have hrem : (removeItemFromCart userId itemId s1).1 =
      (removeItemFromCart userId itemId s2).1 := by
    by_cases hi : itemId = ""
    · simp [removeItemFromCart, hi]
    cases hfa : s1.cartFault with
    | some e =>
        have hfa2 : s2.cartFault = some e := by rw [← h3]; exact hfa
        simp [removeItemFromCart, hi, deleteCartRow, hfa, hfa2]
    | none =>
        have hfa2 : s2.cartFault = none := by rw [← h3]; exact hfa
        rw [removeItemFromCart_ok s1 userId itemId hfa hi,
          removeItemFromCart_ok s2 userId itemId hfa2 hi]
        simp [h1, h2, h4]
  refine ⟨?_, hadd q, ?_, hrem, ?_⟩
  · rw [getCartForUser_fst userId s1 hm1, getCartForUser_fst userId s2 hm2,
      h1, h2, h3, h4]
  · by_cases hq1 : q < 1
    · simpa [updateItemQuantity, hq1] using hrem
    · simpa [updateItemQuantity, hq1] using hadd q
  · cases hfa : s1.cartFault with
    | some e =>
        have hfa2 : s2.cartFault = some e := by rw [← h3]; exact hfa
        simp [clearCartForUser, fetchCartFromDynamo, hfa, hfa2]
    | none =>
        have hfa2 : s2.cartFault = none := by rw [← h3]; exact hfa
        rw [clearCartForUser_ok s1 userId hfa, clearCartForUser_ok s2 userId hfa2]
        simp [h2, h4]

/-- C3: with the same durable tables, fault slot and clock, every operation
returns to the caller exactly the same result when every cache call fails or
the cache client is absent (`hdead`) as when the cache works and starts
empty; in particular no cache failure is ever surfaced. -/
theorem cache_unavailability_invisible
    (ct : List CartRow) (it : List ProductRec) (cf : Option JsErr) (clk : Nat)
    (tr : List Ev) (p f : Bool) (c0 : List (String × Cart))
    (userId itemId : String) (quantity : Int)
    (hdead : p = false ∨ f = true) :
    (getCartForUser userId (St.mk ct it p f c0 cf clk tr)).1 =
      (getCartForUser userId (St.mk ct it true false [] cf clk tr)).1 ∧
    (addItemToCart userId itemId quantity (St.mk ct it p f c0 cf clk tr)).1 =
      (addItemToCart userId itemId quantity (St.mk ct it true false [] cf clk tr)).1 ∧
    (updateItemQuantity userId itemId quantity (St.mk ct it p f c0 cf clk tr)).1 =
      (updateItemQuantity userId itemId quantity
        (St.mk ct it true false [] cf clk tr)).1 ∧
    (removeItemFromCart userId itemId (St.mk ct it p f c0 cf clk tr)).1 =
      (removeItemFromCart userId itemId (St.mk ct it true false [] cf clk tr)).1 ∧
    (clearCartForUser userId (St.mk ct it p f c0 cf clk tr)).1 =
      (clearCartForUser userId (St.mk ct it true false [] cf clk tr)).1 := by
  have hm1 : (readCartFromCache userId (St.mk ct it p f c0 cf clk tr)).1 = none := by
    rcases hdead with rfl | rfl <;> simp [readCartFromCache_fst]
  have hm2 : (readCartFromCache userId (St.mk ct it true false [] cf clk tr)).1 =
      none := by
    simp [readCartFromCache_fst, assocGet]
  exact fst_eq_of_obs userId itemId quantity _ _ rfl rfl rfl rfl hm1 hm2

/-- Witness for C3: a failing cache against a working empty cache over a
one-row table. -/
theorem cache_unavailability_witness :
    (getCartForUser "u" (St.mk twoRowTable [] true true [] none 0 [])).1 =
      (getCartForUser "u" (St.mk twoRowTable [] true false [] none 0 [])).1 ∧
    (addItemToCart "u" "a" 1 (St.mk twoRowTable [] true true [] none 0 [])).1 =
      (addItemToCart "u" "a" 1 (St.mk twoRowTable [] true false [] none 0 [])).1 ∧
    (updateItemQuantity "u" "a" 1 (St.mk twoRowTable [] true true [] none 0 [])).1 =
      (updateItemQuantity "u" "a" 1 (St.mk twoRowTable [] true false [] none 0 [])).1 ∧
    (removeItemFromCart "u" "a" (St.mk twoRowTable [] true true [] none 0 [])).1 =
      (removeItemFromCart "u" "a" (St.mk twoRowTable [] true false [] none 0 [])).1 ∧
    (clearCartForUser "u" (St.mk twoRowTable [] true true [] none 0 [])).1 =
      (clearCartForUser "u" (St.mk twoRowTable [] true false [] none 0 [])).1 :=
  cache_unavailability_invisible twoRowTable [] none 0 [] true true [] "u" "a" 1
    (Or.inr rfl)
